import Mathlib

/-!
Verification development for the AI Shop Assistant Cloudflare Worker
(`src/worker/index.js`).  The worker's pure computations (the template
substitution chain of `callGeminiApi`) are embedded directly; the
stateful handlers (`handleChat`, `handleSavePrompts`,
`handleTelegramWebhook`) are embedded as pure functions over explicit
"world" records that carry the responses of the external services
(GitHub contents API, Gemini, Telegram), returning the HTTP response
together with the list of outbound effects the handler performed.
-/

/-! ## JavaScript `String.prototype.replace` with a global literal regex

`callGeminiApi` renders the prompt template with a chain of six
`template.replace(/\{\{name\}\}/g, value)` calls.  Each such call scans
the subject string left to right, replaces every (non-overlapping,
leftmost) occurrence of the literal pattern, and does not re-scan the
text it has just substituted **within the same call**.  The replacement
string is not inserted verbatim: JavaScript expands the substitution
patterns `$$`, `$&` (the matched text), a dollar followed by a backquote
(the portion of the original subject before the match) and a dollar
followed by a quote (the portion after the match); since the regexes
here have no capture groups, every other `$`-sequence is literal.
Strings are modelled as `List Char`. -/

def brOpen : Char := '\x7b'

def brClose : Char := '\x7d'

def dollar : Char := '$'

/-- Expansion of a JavaScript replacement string for a regex with no
capture groups: `pat` is the matched text (the literal pattern),
`before` the portion of the subject before the match, `after` the
portion after it. -/
def expandRepl (pat before after : List Char) : List Char → List Char
  | [] => []
  | c :: r =>
    if c = dollar then
      match r with
      | [] => [c]
      | d :: r2 =>
        if d = dollar then dollar :: expandRepl pat before after r2
        else if d = '&' then pat ++ expandRepl pat before after r2
        else if d = Char.ofNat 96 then before ++ expandRepl pat before after r2
        else if d = Char.ofNat 39 then after ++ expandRepl pat before after r2
        else c :: expandRepl pat before after (d :: r2)
    else c :: expandRepl pat before after r

/-- One global-replace pass.  `before` is the already-scanned prefix of
the original subject (needed by the replacement expansion); `skip`
counts subject characters still belonging to the most recent match,
which are consumed without being re-scanned (matches are leftmost and
non-overlapping, and the substituted text is not re-scanned within the
same pass). -/
def jsReplaceGo (pat rep : List Char) : Nat → List Char → List Char → List Char
  | _, _, [] => []
  | Nat.succ k, before, c :: rest => jsReplaceGo pat rep k (before ++ [c]) rest
  | 0, before, c :: rest =>
    if pat.isPrefixOf (c :: rest) then
      expandRepl pat before ((c :: rest).drop pat.length) rep ++
        jsReplaceGo pat rep (pat.length - 1) (before ++ [c]) rest
    else
      c :: jsReplaceGo pat rep 0 (before ++ [c]) rest

/-- `subject.replace(/pat/g, rep)` for a literal pattern `pat` with no
capture groups. -/
def jsReplace (pat rep s : List Char) : List Char := jsReplaceGo pat rep 0 [] s

/-! ## The fixed placeholder mapping of `callGeminiApi` -/

/-- The literal text `\x7b\x7bw\x7d\x7d` of a placeholder named `w`. -/
def phTok (w : List Char) : List Char := brOpen :: brOpen :: w ++ [brClose, brClose]

def nUserPreferences : List Char := ("user_preferences").data

def nProductData : List Char := ("product_data").data

def nSizeChart : List Char := ("size_chart").data

def nUserMeasurements : List Char := ("user_measurements").data

def nOrderNumber : List Char := ("order_number").data

def nOrderStatusData : List Char := ("order_status_data").data

def ruProductData : List Char := ("данные о товарах").data

def ruSizeChart : List Char := ("таблица размеров").data

def ruOrderStatus : List Char := ("статус заказа").data

/-- The rendering step of `callGeminiApi` (`src/worker/index.js:55-61`):
six sequential global replaces, in source order. -/
def renderTemplate (promptTemplate userMessage : List Char) : List Char :=
  jsReplace (phTok nOrderStatusData) ruOrderStatus
    (jsReplace (phTok nOrderNumber) userMessage
      (jsReplace (phTok nUserMeasurements) userMessage
        (jsReplace (phTok nSizeChart) ruSizeChart
          (jsReplace (phTok nProductData) ruProductData
            (jsReplace (phTok nUserPreferences) userMessage promptTemplate)))))

/-! ## Character-class predicates and template token structure -/

def noOpen (l : List Char) : Bool := l.all (fun c => c != brOpen)

def braceFree (l : List Char) : Bool := l.all (fun c => c != brOpen && c != brClose)

def noDollar (l : List Char) : Bool := l.all (fun c => c != dollar)

/-- A template decomposed into literal segments and placeholder tokens;
`flatten` recovers the template text. -/
inductive Tok where
  | lit : List Char → Tok
  | ph : List Char → Tok
deriving DecidableEq

def Tok.flat : Tok → List Char
  | .lit l => l
  | .ph w => phTok w

def flatten : List Tok → List Char
  | [] => []
  | t :: ts => t.flat ++ flatten ts

/-- Well-formed token: literal segments are brace-free, placeholder
names are nonempty and brace-free. -/
def goodTok : Tok → Bool
  | .lit l => braceFree l
  | .ph w => !w.isEmpty && braceFree w

def goodToks (ts : List Tok) : Bool := ts.all goodTok

/-- The per-request context of `callGeminiApi`: the six recognized
placeholder names and the value each is mapped to (the user message or
a fixed Russian string), in the order the chain replaces them. -/
def ctxLookup (userMessage : List Char) (w : List Char) : Option (List Char) :=
  if w = nUserPreferences then some userMessage
  else if w = nProductData then some ruProductData
  else if w = nSizeChart then some ruSizeChart
  else if w = nUserMeasurements then some userMessage
  else if w = nOrderNumber then some userMessage
  else if w = nOrderStatusData then some ruOrderStatus
  else none

/-- Substitute a single recognized placeholder token by its value. -/
def replOne (w rep : List Char) : Tok → Tok
  | .lit l => .lit l
  | .ph v => if v = w then .lit rep else .ph v

/-- Substitute every recognized placeholder token, keep the rest. -/
def substTok (m : List Char) : Tok → Tok
  | .lit l => .lit l
  | .ph w =>
    match ctxLookup m w with
    | some v => .lit v
    | none => .ph w

/-! ## Lemmas about a single global-replace pass -/

theorem expandRepl_noDollar (pat before after : List Char) :
    ∀ rep : List Char, noDollar rep = true → expandRepl pat before after rep = rep := by
  intro rep
  induction rep with
  | nil => intro _; rfl
  | cons c r ih =>
    intro h
    rw [noDollar, List.all_cons, Bool.and_eq_true] at h
    have hc : c ≠ dollar := by simpa using h.1
    have hr := ih (by simpa [noDollar] using h.2)
    rw [expandRepl.eq_def]
    simp [hc, hr]

theorem isPrefixOf_self_app : ∀ p r : List Char, p.isPrefixOf (p ++ r) = true := by
  intro p
  induction p with
  | nil => simp
  | cons a as ih => intro r; simp [List.isPrefixOf_cons₂, ih]

/-- Skipping the remaining characters of a match. -/
theorem jsReplaceGo_skip_count (pat rep : List Char) :
    ∀ (l rest before : List Char),
      jsReplaceGo pat rep l.length before (l ++ rest) =
        jsReplaceGo pat rep 0 (before ++ l) rest := by
  intro l
  induction l with
  | nil => simp
  | cons c l' ih =>
    intro rest before
    show jsReplaceGo pat rep (l'.length + 1) before (c :: (l' ++ rest)) = _
    rw [show l'.length + 1 = Nat.succ l'.length from rfl]
    simp only [jsReplaceGo]
    rw [ih]
    simp

/-- A pattern starting with an opening brace matches nowhere in a
segment that has no opening brace. -/
theorem jsReplaceGo_skip_noOpen (w rep : List Char) :
    ∀ (l : List Char), noOpen l = true → ∀ (rest before : List Char),
      jsReplaceGo (phTok w) rep 0 before (l ++ rest) =
        l ++ jsReplaceGo (phTok w) rep 0 (before ++ l) rest := by
  intro l
  induction l with
  | nil => simp
  | cons c l' ih =>
    intro h rest before
    rw [noOpen, List.all_cons, Bool.and_eq_true] at h
    have hc : c ≠ brOpen := by simpa using h.1
    have hpre : (phTok w).isPrefixOf (c :: (l' ++ rest)) = false := by
      rw [phTok]
      show List.isPrefixOf (brOpen :: (brOpen :: w ++ [brClose, brClose])) _ = false
      rw [List.isPrefixOf_cons₂]
      have : (brOpen == c) = false := by
        simpa using fun hcc => hc hcc.symm
      simp [this]
    show jsReplaceGo (phTok w) rep 0 before (c :: (l' ++ rest)) = _
    simp only [jsReplaceGo, hpre]
    rw [ih (by simpa [noOpen] using h.2)]
    simp

/-- A pass meets its own pattern at the head of the subject. -/
theorem jsReplaceGo_hit (w rep : List Char) (before rest : List Char) :
    jsReplaceGo (phTok w) rep 0 before (phTok w ++ rest) =
      expandRepl (phTok w) before rest rep ++
        jsReplaceGo (phTok w) rep 0 (before ++ phTok w) rest := by
  have hcons : phTok w ++ rest = brOpen :: ((brOpen :: w ++ [brClose, brClose]) ++ rest) := by
    simp [phTok]
  rw [hcons]
  simp only [jsReplaceGo]
  rw [← hcons, isPrefixOf_self_app]
  simp only [if_true]
  have hdrop : (phTok w ++ rest).drop (phTok w).length = rest := by
    rw [List.drop_left]
  rw [hdrop]
  simp only [List.append_eq]
  rw [jsReplaceGo_skip_count]
  congr 2
  simp [phTok]

/-- Two placeholder bodies closed by a double brace can only align if
the names are equal (neither name contains a closing brace). -/
theorem close_close_names (w : List Char) :
    ∀ (v rest : List Char), w.all (fun c => c != brClose) = true →
      v.all (fun c => c != brClose) = true →
      (w ++ [brClose, brClose]).isPrefixOf (v ++ ([brClose, brClose] ++ rest)) = true →
      w = v := by
  induction w with
  | nil =>
    intro v rest _ hv h
    cases v with
    | nil => rfl
    | cons d v' =>
      rw [List.all_cons, Bool.and_eq_true] at hv
      have hd : d ≠ brClose := by simpa using hv.1
      exfalso
      apply hd
      simp only [List.nil_append, List.cons_append, List.isPrefixOf_cons₂,
        Bool.and_eq_true, beq_iff_eq] at h
      exact h.1.symm
  | cons c w' ih =>
    intro v rest hw hv h
    rw [List.all_cons, Bool.and_eq_true] at hw
    have hc : c ≠ brClose := by simpa using hw.1
    cases v with
    | nil =>
      exfalso
      apply hc
      simp only [List.cons_append, List.nil_append, List.isPrefixOf_cons₂,
        Bool.and_eq_true, beq_iff_eq] at h
      exact h.1
    | cons d v' =>
      simp only [List.cons_append, List.isPrefixOf_cons₂, Bool.and_eq_true, beq_iff_eq] at h
      have := ih v' rest hw.2 (by
        rw [List.all_cons, Bool.and_eq_true] at hv
        exact hv.2) (by simpa using h.2)
      rw [h.1, this]

theorem braceFree_noClose (l : List Char) (h : braceFree l = true) :
    l.all (fun c => c != brClose) = true := by
  rw [braceFree] at h
  rw [List.all_eq_true] at h ⊢
  intro c hc
  have := h c hc
  rw [Bool.and_eq_true] at this
  exact this.2

theorem braceFree_noOpen (l : List Char) (h : braceFree l = true) : noOpen l = true := by
  rw [braceFree] at h
  rw [noOpen, List.all_eq_true]
  rw [List.all_eq_true] at h
  intro c hc
  have := h c hc
  rw [Bool.and_eq_true] at this
  exact this.1

/-- A pass for placeholder `w` walks over a placeholder token of a
different name `v` without touching it. -/
theorem jsReplaceGo_skip_ph (w v rep : List Char) (hw : braceFree w = true)
    (hv : braceFree v = true) (hvne : v ≠ []) (hne : v ≠ w) :
    ∀ (before rest : List Char),
      jsReplaceGo (phTok w) rep 0 before (phTok v ++ rest) =
        phTok v ++ jsReplaceGo (phTok w) rep 0 (before ++ phTok v) rest := by
  intro before rest
  have hnm1 : (phTok w).isPrefixOf (phTok v ++ rest) = false := by
    rw [phTok, phTok]
    simp only [List.cons_append, List.isPrefixOf_cons₂, beq_self_eq_true, Bool.true_and]
    rw [Bool.eq_false_iff]
    intro habs
    have := close_close_names w v rest (braceFree_noClose w hw) (braceFree_noClose v hv)
      (by simpa [List.append_assoc] using habs)
    exact hne this.symm
  have hnm2 : (phTok w).isPrefixOf (brOpen :: (v ++ ([brClose, brClose] ++ rest))) = false := by
    rw [phTok]
    simp only [List.cons_append, List.isPrefixOf_cons₂, beq_self_eq_true, Bool.true_and]
    cases v with
    | nil => exact absurd rfl hvne
    | cons d v' =>
      rw [braceFree, List.all_cons, Bool.and_eq_true, Bool.and_eq_true] at hv
      have hd : d ≠ brOpen := by simpa using hv.1.1
      simp only [List.cons_append, List.isPrefixOf_cons₂]
      have : (brOpen == d) = false := by
        simpa using fun hcc => hd hcc.symm
      simp [this]
  have hstep1 : phTok v ++ rest = brOpen :: (brOpen :: (v ++ ([brClose, brClose] ++ rest))) := by
    simp [phTok]
  rw [hstep1]
  simp only [jsReplaceGo]
  rw [← hstep1, hnm1]
  simp only [Bool.false_eq_true, if_false]
  simp only [jsReplaceGo, hnm2, Bool.false_eq_true, if_false]
  have hnoOp : noOpen (v ++ [brClose, brClose]) = true := by
    rw [noOpen, List.all_eq_true]
    intro c hc
    rw [List.mem_append] at hc
    rcases hc with h1 | h2
    · have := braceFree_noOpen v hv
      rw [noOpen, List.all_eq_true] at this
      exact this c h1
    · have hcb : c = brClose := by
        rcases List.mem_cons.mp h2 with h3 | h4
        · exact h3
        · simpa using h4
      rw [hcb]
      decide
  have := jsReplaceGo_skip_noOpen w rep (v ++ [brClose, brClose]) hnoOp rest
    (before ++ [brOpen] ++ [brOpen])
  rw [show v ++ [brClose, brClose] ++ rest = v ++ ([brClose, brClose] ++ rest) by
    simp [List.append_assoc]] at this
  rw [this]
  simp [phTok, List.append_assoc]

/-- One full global-replace pass over a well-formed template: exactly
the placeholder tokens named `w` are substituted (by the replacement
text, which contains no dollar patterns), everything else is copied. -/
theorem jsReplaceGo_flatten (w rep : List Char) (hw : braceFree w = true)
    (hrep : noDollar rep = true) :
    ∀ ts : List Tok, goodToks ts = true → ∀ before : List Char,
      jsReplaceGo (phTok w) rep 0 before (flatten ts) =
        flatten (ts.map (replOne w rep)) := by
  intro ts
  induction ts with
  | nil => intro _ before; rfl
  | cons t ts' ih =>
    intro hgood before
    rw [goodToks, List.all_cons, Bool.and_eq_true] at hgood
    have ih' := ih hgood.2
    cases t with
    | lit l =>
      have hl : braceFree l = true := hgood.1
      show jsReplaceGo (phTok w) rep 0 before (l ++ flatten ts') = _
      rw [jsReplaceGo_skip_noOpen w rep l (braceFree_noOpen l hl), ih']
      rfl
    | ph v =>
      by_cases hvw : v = w
      · subst hvw
        show jsReplaceGo (phTok v) rep 0 before (phTok v ++ flatten ts') = _
        rw [jsReplaceGo_hit, expandRepl_noDollar _ _ _ _ hrep, ih']
        show rep ++ _ = flatten (replOne v rep (Tok.ph v) :: ts'.map (replOne v rep))
        rw [show replOne v rep (Tok.ph v) = Tok.lit rep by simp [replOne]]
        rfl
      · have hv : braceFree v = true := by
          have := hgood.1
          rw [goodTok, Bool.and_eq_true] at this
          exact this.2
        have hvne : v ≠ [] := by
          have := hgood.1
          rw [goodTok, Bool.and_eq_true] at this
          simpa using this.1
        show jsReplaceGo (phTok w) rep 0 before (phTok v ++ flatten ts') = _
        rw [jsReplaceGo_skip_ph w v rep hw hv hvne hvw, ih']
        show phTok v ++ _ = flatten (replOne w rep (Tok.ph v) :: ts'.map (replOne w rep))
        rw [show replOne w rep (Tok.ph v) = Tok.ph v by simp [replOne, hvw]]
        rfl

theorem jsReplace_flatten (w rep : List Char) (hw : braceFree w = true)
    (hrep : noDollar rep = true) (ts : List Tok) (hts : goodToks ts = true) :
    jsReplace (phTok w) rep (flatten ts) = flatten (ts.map (replOne w rep)) :=
  jsReplaceGo_flatten w rep hw hrep ts hts []

/-- A pass whose replacement text is brace-free keeps the token list
well-formed. -/
theorem goodToks_map_replOne (w rep : List Char) (hrep : braceFree rep = true)
    (ts : List Tok) (hts : goodToks ts = true) :
    goodToks (ts.map (replOne w rep)) = true := by
  rw [goodToks, List.all_eq_true]
  intro t ht
  rw [List.mem_map] at ht
  obtain ⟨t0, ht0, rfl⟩ := ht
  rw [goodToks, List.all_eq_true] at hts
  have h0 := hts t0 ht0
  cases t0 with
  | lit l => exact h0
  | ph v =>
    by_cases hvw : v = w
    · simp [replOne, hvw, goodTok, hrep]
    · simpa [replOne, hvw] using h0

/-- The six sequential passes act on a placeholder token exactly like a
single lookup in the fixed context. -/
theorem replOne_chain (m : List Char) (t : Tok) :
    replOne nOrderStatusData ruOrderStatus (replOne nOrderNumber m
      (replOne nUserMeasurements m (replOne nSizeChart ruSizeChart
        (replOne nProductData ruProductData (replOne nUserPreferences m t))))) =
      substTok m t := by
  cases t with
  | lit l => rfl
  | ph v =>
    by_cases h1 : v = nUserPreferences
    · subst h1
      simp [replOne, substTok, ctxLookup]
    · by_cases h2 : v = nProductData
      · subst h2
        simp [replOne, substTok, ctxLookup,
          show nProductData ≠ nUserPreferences by decide]
      · by_cases h3 : v = nSizeChart
        · subst h3
          simp [replOne, substTok, ctxLookup,
            show nSizeChart ≠ nUserPreferences by decide,
            show nSizeChart ≠ nProductData by decide]
        · by_cases h4 : v = nUserMeasurements
          · subst h4
            simp [replOne, substTok, ctxLookup,
              show nUserMeasurements ≠ nUserPreferences by decide,
              show nUserMeasurements ≠ nProductData by decide,
              show nUserMeasurements ≠ nSizeChart by decide]
          · by_cases h5 : v = nOrderNumber
            · subst h5
              simp [replOne, substTok, ctxLookup,
                show nOrderNumber ≠ nUserPreferences by decide,
                show nOrderNumber ≠ nProductData by decide,
                show nOrderNumber ≠ nSizeChart by decide,
                show nOrderNumber ≠ nUserMeasurements by decide]
            · by_cases h6 : v = nOrderStatusData
              · subst h6
                simp [replOne, substTok, ctxLookup,
                  show nOrderStatusData ≠ nUserPreferences by decide,
                  show nOrderStatusData ≠ nProductData by decide,
                  show nOrderStatusData ≠ nSizeChart by decide,
                  show nOrderStatusData ≠ nUserMeasurements by decide,
                  show nOrderStatusData ≠ nOrderNumber by decide]
              · simp [replOne, substTok, ctxLookup, h1, h2, h3, h4, h5, h6]

/-- Rendering a well-formed template with a user message that contains
no brace and no dollar character substitutes every recognized
placeholder token by its context value and keeps every literal segment
and every unrecognized placeholder token literally unchanged. -/
theorem renderTemplate_flatten (ts : List Tok) (m : List Char)
    (hts : goodToks ts = true) (hb : braceFree m = true) (hd : noDollar m = true) :
    renderTemplate (flatten ts) m = flatten (ts.map (substTok m)) := by
  have g1 := goodToks_map_replOne nUserPreferences m hb ts hts
  have g2 := goodToks_map_replOne nProductData ruProductData (by decide) _ g1
  have g3 := goodToks_map_replOne nSizeChart ruSizeChart (by decide) _ g2
  have g4 := goodToks_map_replOne nUserMeasurements m hb _ g3
  have g5 := goodToks_map_replOne nOrderNumber m hb _ g4
  rw [renderTemplate,
    jsReplace_flatten nUserPreferences m (by decide) hd ts hts,
    jsReplace_flatten nProductData ruProductData (by decide) (by decide) _ g1,
    jsReplace_flatten nSizeChart ruSizeChart (by decide) (by decide) _ g2,
    jsReplace_flatten nUserMeasurements m (by decide) hd _ g3,
    jsReplace_flatten nOrderNumber m (by decide) hd _ g4,
    jsReplace_flatten nOrderStatusData ruOrderStatus (by decide) (by decide) _ g5]
  congr 1
  rw [List.map_map, List.map_map, List.map_map, List.map_map, List.map_map]
  apply List.map_congr_left
  intro t _
  exact replOne_chain m t

/-- The values of the fixed context. -/
theorem ctxLookup_values (m v val : List Char) (h : ctxLookup m v = some val) :
    val = m ∨ val = ruProductData ∨ val = ruSizeChart ∨ val = ruOrderStatus := by
  rw [ctxLookup] at h
  split_ifs at h <;> simp_all

/-- Substituting the context into a well-formed template yields a
well-formed template again (the message being brace-free). -/
theorem goodToks_map_substTok (m : List Char) (hb : braceFree m = true)
    (ts : List Tok) (hts : goodToks ts = true) :
    goodToks (ts.map (substTok m)) = true := by
  rw [goodToks, List.all_eq_true]
  intro t ht
  rw [List.mem_map] at ht
  obtain ⟨t0, ht0, rfl⟩ := ht
  rw [goodToks, List.all_eq_true] at hts
  have h0 := hts t0 ht0
  cases t0 with
  | lit l => exact h0
  | ph v =>
    cases hc : ctxLookup m v with
    | none => simpa [substTok, hc] using h0
    | some val =>
      rcases ctxLookup_values m v val hc with h | h | h | h <;>
        simp [substTok, hc, goodTok, h, hb] <;> decide

theorem substTok_idem (m : List Char) (t : Tok) :
    substTok m (substTok m t) = substTok m t := by
  cases t with
  | lit l => rfl
  | ph v =>
    cases hc : ctxLookup m v with
    | none => simp [substTok, hc]
    | some val => simp [substTok, hc]

/-! ## Claims C1 and C2: the rendering step -/

/-- C1 counterexample: the claim says every occurrence of a recognized
placeholder is replaced by its mapped value, so rendering the template
`\x7b\x7buser_preferences\x7d\x7d` with the user message
`\x7b\x7bproduct_data\x7d\x7d` should produce that message itself (the
mapped value of `user_preferences`).  Instead the chain re-scans the
substituted message and the second pass turns it into the fixed
product-data string. -/
theorem c1_counterexample :
    renderTemplate (phTok nUserPreferences) (phTok nProductData) ≠ phTok nProductData ∧
      renderTemplate (phTok nUserPreferences) (phTok nProductData) = ruProductData := by
  constructor
  · decide
  · decide

/-- C1 (amended): for every well-formed template (brace-free literal
segments, nonempty brace-free placeholder names) and every user message
containing no brace and no dollar character, the rendering step
replaces all occurrences of each recognized placeholder by its mapped
value and leaves every placeholder token not in the recognized set
literally unchanged. -/
theorem render_substitutes_recognized_keeps_unrecognized (ts : List Tok) (m : List Char)
    (hts : goodToks ts = true) (hb : braceFree m = true) (hd : noDollar m = true) :
    renderTemplate (flatten ts) m = flatten (ts.map (substTok m)) :=
  renderTemplate_flatten ts m hts hb hd

/-- C1 witness: the specification's own end-to-end example — rendering
`Hello \x7b\x7bname\x7d\x7d` with message `World` leaves the
unrecognized placeholder `name` literally unchanged. -/
theorem render_substitutes_recognized_keeps_unrecognized_witness :
    renderTemplate (flatten [Tok.lit (("Hello ").data), Tok.ph (("name").data)]) (("World").data) =
      ("Hello ").data ++ phTok (("name").data) :=
  Eq.trans
    (render_substitutes_recognized_keeps_unrecognized
      [Tok.lit (("Hello ").data), Tok.ph (("name").data)] (("World").data)
      (by decide) (by decide) (by decide))
    (by decide)

/-- C2 counterexample: rendering is not idempotent.  With the template
`\x7b\x7buser_measurements\x7d\x7d` and the user message
`x\x7b\x7buser_preferences\x7d\x7dy`, one pass yields
`x\x7b\x7buser_preferences\x7d\x7dy` (the `user_preferences` rule runs
before the `user_measurements` rule and never sees the substituted
text), and a second pass with the same context substitutes again,
yielding `xx\x7b\x7buser_preferences\x7d\x7dyy`. -/
theorem c2_counterexample :
    renderTemplate
        (renderTemplate (phTok nUserMeasurements) ('x' :: phTok nUserPreferences ++ ['y']))
        ('x' :: phTok nUserPreferences ++ ['y']) ≠
      renderTemplate (phTok nUserMeasurements) ('x' :: phTok nUserPreferences ++ ['y']) := by
  decide

/-- C2 (amended): substituted values are re-scanned by the later
substitution steps of the chain, but when the user message contains no
brace and no dollar character, rendering a well-formed template is
idempotent: a second application with the same context changes
nothing. -/
theorem render_idempotent_for_plain_messages (ts : List Tok) (m : List Char)
    (hts : goodToks ts = true) (hb : braceFree m = true) (hd : noDollar m = true) :
    renderTemplate (renderTemplate (flatten ts) m) m = renderTemplate (flatten ts) m := by
  rw [renderTemplate_flatten ts m hts hb hd,
    renderTemplate_flatten (ts.map (substTok m)) m (goodToks_map_substTok m hb ts hts) hb hd,
    List.map_map]
  congr 1
  apply List.map_congr_left
  intro t _
  show substTok m (substTok m t) = substTok m t
  exact substTok_idem m t

/-- C2 witness: idempotence at a concrete well-formed template and a
plain message. -/
theorem render_idempotent_for_plain_messages_witness :
    renderTemplate (renderTemplate (flatten [Tok.ph nUserMeasurements]) (("msg").data))
        (("msg").data) =
      renderTemplate (flatten [Tok.ph nUserMeasurements]) (("msg").data) :=
  render_idempotent_for_plain_messages [Tok.ph nUserMeasurements] (("msg").data)
    (by decide) (by decide) (by decide)

/-! ## Worlds and effects for the route handlers

The handlers are embedded as pure functions over explicit records that
carry the responses the external services would give to the requests
the handler issues.  JavaScript exceptions are modelled by `JsErr`; the
engine-generated messages of built-in error classes are abstracted by
fixed strings.  A JavaScript string-typed value that may be `undefined`
is modelled as `Option String`, and the truthiness test `!v` applied to
such a value is `strFalsy` (true for `undefined` and for the empty
string). -/

inductive JsErr where
  | jsError : String → JsErr
  | typeError : JsErr
  | syntaxError : JsErr
  | referenceError : JsErr
deriving DecidableEq

def JsErr.message : JsErr → String
  | .jsError m => m
  | .typeError => "Cannot read properties of undefined"
  | .syntaxError => "Unexpected token in JSON"
  | .referenceError => "update is not defined"

def strFalsy : Option String → Bool
  | none => true
  | some s => s.isEmpty

structure HttpResp where
  ok : Bool
  status : Nat
  statusText : String
  body : String
deriving DecidableEq

/-- One element of the parsed prompts document. -/
structure PromptDef where
  id : String
  name : String
  description : String
  prompt : String
deriving DecidableEq

/-- Responses of the GitHub contents API for the two reads performed by
`fetchPromptsFromGitHub`: the metadata request (whose parsed JSON
carries the `sha` field) and the raw-content download.  `parsedDoc` is
the result of `JSON.parse` applied to the downloaded content by the
caller (`none` models a parse failure). -/
structure StoreWorld where
  metadataResp : HttpResp
  metadataSha : String
  contentResp : HttpResp
  parsedDoc : Option (List PromptDef)
deriving DecidableEq

/-- `fetchPromptsFromGitHub` (`src/worker/index.js:17-44`): returns the
raw content and the sha, or throws a generic `Error` whose message
carries only the `statusText` of whichever request failed — the status
code is not inspected, so a missing file (404) and any other HTTP
failure are indistinguishable to the caller. -/
def fetchPromptsFromGitHub (st : StoreWorld) : Except JsErr (String × String) :=
  if st.metadataResp.ok = false then
    Except.error (JsErr.jsError (("Failed to fetch prompts metadata from GitHub: ") ++
      st.metadataResp.statusText))
  else if st.contentResp.ok = false then
    Except.error (JsErr.jsError (("Failed to fetch raw prompts content from GitHub: ") ++
      st.contentResp.statusText))
  else
    Except.ok (st.contentResp.body, st.metadataSha)

/-! ### The Gemini client -/

structure GPart where
  text : Option String
deriving DecidableEq

structure GContent where
  parts : Option (List GPart)
deriving DecidableEq

structure GCandidate where
  content : Option GContent
deriving DecidableEq

structure GeminiJson where
  candidates : Option (List GCandidate)
deriving DecidableEq

/-- The Gemini response: the HTTP envelope and, when the body parses,
its parsed JSON. -/
structure GeminiWorld where
  resp : HttpResp
  parsedJson : Option GeminiJson
deriving DecidableEq

def geminiFallback : String :=
  "Извините, не удалось получить ответ от AI. Попробуйте перефразировать запрос."

/-- The extraction step of `callGeminiApi` (`src/worker/index.js:82-86`):
`if (json.candidates && json.candidates[0] && json.candidates[0].content
&& json.candidates[0].content.parts)` — note that an empty `parts` array
is truthy in JavaScript, so the guard passes and `parts[0].text` throws
a `TypeError`; a present first part returns its `text` field, which is
`undefined` when absent. -/
def extractGeminiText (j : GeminiJson) : Except JsErr (Option String) :=
  match j.candidates with
  | some (c0 :: _) =>
    match c0.content with
    | some ct =>
      match ct.parts with
      | some (p0 :: _) => Except.ok p0.text
      | some [] => Except.error JsErr.typeError
      | none => Except.ok (some geminiFallback)
    | none => Except.ok (some geminiFallback)
  | some [] => Except.ok (some geminiFallback)
  | none => Except.ok (some geminiFallback)

/-- String form of the rendering step. -/
def renderTemplateS (promptTemplate userMessage : String) : String :=
  String.mk (renderTemplate promptTemplate.data userMessage.data)

/-- `callGeminiApi` (`src/worker/index.js:53-87`): renders the template,
posts the final prompt, and on a non-ok response throws an `Error`
carrying the upstream status and body; otherwise parses and extracts.
Also returns the final prompt that was sent (the request payload). -/
def callGeminiApi (promptTemplate userMessage : String) (gw : GeminiWorld) :
    Except JsErr (Option String) × String :=
  let finalPrompt := renderTemplateS promptTemplate userMessage
  if gw.resp.ok = false then
    (Except.error (JsErr.jsError (("Gemini API error: ") ++ toString gw.resp.status ++
      (" - ") ++ gw.resp.body)), finalPrompt)
  else
    match gw.parsedJson with
    | none => (Except.error JsErr.syntaxError, finalPrompt)
    | some j => (extractGeminiText j, finalPrompt)

/-! ### The chat handler -/

/-- Parsed body of a chat request; each field may be absent. -/
structure ChatReqBody where
  message : Option String
  functionId : Option String
deriving DecidableEq

/-- Structured form of the JSON bodies `handleChat` produces:
`\x7berror\x7d` or `\x7bresponse\x7d`. -/
inductive ChatBodyOut where
  | errBody : String → ChatBodyOut
  | okBody : Option String → ChatBodyOut
deriving DecidableEq

structure ChatResponse where
  status : Nat
  body : ChatBodyOut
deriving DecidableEq

/-- Outbound activity of one `handleChat` invocation: how many times the
prompts document was fetched and the final prompts sent to Gemini. -/
structure ChatEffects where
  storeFetches : Nat
  geminiPrompts : List String
deriving DecidableEq

structure ChatEnv where
  geminiApiKey : Option String
deriving DecidableEq

/-- `handleChat` (`src/worker/index.js:96-127`).  `reqBody = none`
models a request whose JSON body fails to parse (the rejection is
caught by the handler's catch block). -/
def handleChat (reqBody : Option ChatReqBody) (env : ChatEnv) (st : StoreWorld)
    (gw : GeminiWorld) : ChatResponse × ChatEffects :=
  match reqBody with
  | none =>
    (⟨500, ChatBodyOut.errBody (("Internal Server Error during chat processing: ") ++
      JsErr.syntaxError.message)⟩, ⟨0, []⟩)
  | some b =>
    if strFalsy b.message || strFalsy b.functionId then
      (⟨400, ChatBodyOut.errBody ("Missing \x27message\x27 or \x27function_id\x27")⟩, ⟨0, []⟩)
    else if strFalsy env.geminiApiKey then
      (⟨500, ChatBodyOut.errBody ("GEMINI_API_KEY is not configured.")⟩, ⟨0, []⟩)
    else
      match fetchPromptsFromGitHub st with
      | Except.error e =>
        (⟨500, ChatBodyOut.errBody (("Internal Server Error during chat processing: ") ++
          e.message)⟩, ⟨1, []⟩)
      | Except.ok _ =>
        match st.parsedDoc with
        | none =>
          (⟨500, ChatBodyOut.errBody (("Internal Server Error during chat processing: ") ++
            JsErr.syntaxError.message)⟩, ⟨1, []⟩)
        | some prompts =>
          match prompts.find? (fun p => p.id == b.functionId.getD ("")) with
          | none =>
            (⟨404, ChatBodyOut.errBody (("Function ID \x27") ++ b.functionId.getD ("") ++
              ("\x27 not found."))⟩, ⟨1, []⟩)
          | some selectedPrompt =>
            match callGeminiApi selectedPrompt.prompt (b.message.getD ("")) gw with
            | (Except.error e, finalPrompt) =>
              (⟨500, ChatBodyOut.errBody (("Internal Server Error during chat processing: ") ++
                e.message)⟩, ⟨1, [finalPrompt]⟩)
            | (Except.ok aiResponse, finalPrompt) =>
              (⟨200, ChatBodyOut.okBody aiResponse⟩, ⟨1, [finalPrompt]⟩)

/-! ### The save handler -/

structure SaveEnv where
  githubPat : Option String
deriving DecidableEq

/-- The conditional write `handleSavePrompts` issues: the serialized
content (base64 encoding abstracted; `btoaOk` below guards the
characters it accepts) and the `sha` precondition token. -/
structure CommitReq where
  content : String
  sha : String
deriving DecidableEq

structure CommitWorld where
  commitResp : HttpResp
deriving DecidableEq

inductive SaveBodyOut where
  | errBody : String → SaveBodyOut
  | successBody : String → SaveBodyOut
deriving DecidableEq

structure SaveResponse where
  status : Nat
  body : SaveBodyOut
deriving DecidableEq

structure SaveEffects where
  storeFetches : Nat
  commits : List CommitReq
deriving DecidableEq

/-- `btoa` accepts only characters in the Latin-1 range and throws
otherwise. -/
def btoaOk (s : String) : Bool := s.data.all (fun c => c.toNat < 256)

/-- `handleSavePrompts` (`src/worker/index.js:134-176`).  `reqBody` is
the serialized (`JSON.stringify(·, null, 4)`) form of the request
body, `none` modelling a body that fails to parse.  The credential
check precedes the try block; inside it the handler re-fetches the
current sha and issues the conditional write with exactly that sha. -/
def handleSavePrompts (env : SaveEnv) (reqBody : Option String) (st : StoreWorld)
    (cw : CommitWorld) : SaveResponse × SaveEffects :=
  if strFalsy env.githubPat then
    (⟨500, SaveBodyOut.errBody ("GITHUB_PAT secret is not configured.")⟩, ⟨0, []⟩)
  else
    match reqBody with
    | none =>
      (⟨500, SaveBodyOut.errBody (("Internal Server Error during prompt saving: ") ++
        JsErr.syntaxError.message)⟩, ⟨0, []⟩)
    | some newPromptsContent =>
      match fetchPromptsFromGitHub st with
      | Except.error e =>
        (⟨500, SaveBodyOut.errBody (("Internal Server Error during prompt saving: ") ++
          e.message)⟩, ⟨1, []⟩)
      | Except.ok (_, sha) =>
        if btoaOk newPromptsContent = false then
          (⟨500, SaveBodyOut.errBody (("Internal Server Error during prompt saving: ") ++
            ("The string to be encoded contains characters outside of the Latin1 range."))⟩,
            ⟨1, []⟩)
        else
          if cw.commitResp.ok then
            (⟨200, SaveBodyOut.successBody
              ("Prompts successfully saved and committed to GitHub.")⟩,
              ⟨1, [⟨newPromptsContent, sha⟩]⟩)
          else
            (⟨500, SaveBodyOut.errBody (("Internal Server Error during prompt saving: ") ++
              (("Failed to commit to GitHub: ") ++ toString cw.commitResp.status ++
                (" - ") ++ cw.commitResp.body))⟩,
              ⟨1, [⟨newPromptsContent, sha⟩]⟩)

/-! ### The Telegram webhook handler -/

structure TgChat where
  id : Int
deriving DecidableEq

structure TgMessage where
  text : Option String
  chat : Option TgChat
deriving DecidableEq

structure TgUpdate where
  message : Option TgMessage
deriving DecidableEq

structure TgEnv where
  telegramBotToken : Option String
  geminiApiKey : Option String
deriving DecidableEq

/-- World of one webhook invocation: the parse of the inbound update
(`none` = invalid JSON), the worlds of the nested chat call, and
whether the outbound `sendMessage` fetch rejects. -/
structure TgWorld where
  updateParse : Option TgUpdate
  st : StoreWorld
  gw : GeminiWorld
  sendFails : Bool

structure TgEffects where
  chatEffects : ChatEffects
  telegramSends : List (Int × Option String)
deriving DecidableEq

structure TgResponse where
  status : Nat
  body : String
deriving DecidableEq

/-- JavaScript `String.prototype.trim` (whitespace set approximated by
Lean's). -/
def jsTrim (s : String) : String := s.trim

/-- `handleTelegramWebhook` (`src/worker/index.js:204-253`).  The
`update` binding is declared with `const` inside the `try` block, but
the `catch` block reads `update` — a variable that is not in scope
there — so the moment any failure reaches the catch block (a body that
fails to parse, a message without a `chat` field, a rejected outbound
send), evaluating `update` throws a `ReferenceError` that escapes the
handler uncaught; this is the `Except.error` result.  The generic
notification and the `500 "Error"` response written in the catch block
are unreachable. -/
def handleTelegramWebhook (env : TgEnv) (w : TgWorld) :
    Except JsErr TgResponse × TgEffects :=
  if strFalsy env.telegramBotToken then
    (Except.ok ⟨500, ("TELEGRAM_BOT_TOKEN is not configured.")⟩, ⟨⟨0, []⟩, []⟩)
  else
    match w.updateParse with
    | none => (Except.error JsErr.referenceError, ⟨⟨0, []⟩, []⟩)
    | some update =>
      match update.message with
      | none => (Except.ok ⟨200, ("OK")⟩, ⟨⟨0, []⟩, []⟩)
      | some message =>
        if strFalsy message.text then
          (Except.ok ⟨200, ("OK")⟩, ⟨⟨0, []⟩, []⟩)
        else
          match message.chat with
          | none => (Except.error JsErr.referenceError, ⟨⟨0, []⟩, []⟩)
          | some chat =>
            let userText := jsTrim (message.text.getD (""))
            let chatCall :=
              handleChat (some ⟨some userText, some ("product_recommendation")⟩)
                ⟨env.geminiApiKey⟩ w.st w.gw
            let responseText : Option String :=
              match (chatCall.1).body with
              | ChatBodyOut.errBody m =>
                if m.isEmpty then none
                else some (("Произошла ошибка: ") ++ m)
              | ChatBodyOut.okBody r => r
            if w.sendFails then
              (Except.error JsErr.referenceError, ⟨chatCall.2, [(chat.id, responseText)]⟩)
            else
              (Except.ok ⟨200, ("OK")⟩, ⟨chatCall.2, [(chat.id, responseText)]⟩)

/-! ## Sample worlds for concrete evaluations -/

def sampleOkResp : HttpResp := ⟨true, 200, ("OK"), ("")⟩

def sampleStore : StoreWorld :=
  ⟨sampleOkResp, ("sha0"), ⟨true, 200, ("OK"), ("[]")⟩, some []⟩

def sampleGemini : GeminiWorld :=
  ⟨sampleOkResp, some ⟨some [⟨some ⟨some [⟨some ("hello")⟩]⟩⟩]⟩⟩

/-! ## Claim C7: missing `message` or `function_id` -/

/-- C7: a chat request whose `message` or `function_id` is missing or
empty is rejected with 400 and the fixed validation message, before any
store fetch or Gemini call, whatever the environment, store and backend
would have answered. -/
theorem handleChat_missing_fields_rejected (b : ChatReqBody) (env : ChatEnv)
    (st : StoreWorld) (gw : GeminiWorld)
    (h : strFalsy b.message = true ∨ strFalsy b.functionId = true) :
    handleChat (some b) env st gw =
      (⟨400, ChatBodyOut.errBody ("Missing \x27message\x27 or \x27function_id\x27")⟩,
       ⟨0, []⟩) := by
  rcases h with h | h <;> simp [handleChat, h]

/-- C7 witness: the specification's own example, an empty message with
an existing-or-not `function_id`. -/
theorem handleChat_missing_fields_rejected_witness :
    handleChat (some ⟨some (""), some ("x")⟩) ⟨some ("key")⟩ sampleStore sampleGemini =
      (⟨400, ChatBodyOut.errBody ("Missing \x27message\x27 or \x27function_id\x27")⟩,
       ⟨0, []⟩) :=
  handleChat_missing_fields_rejected _ _ _ _ (Or.inl (by decide))

/-! ## Claim C6: unknown `function_id` -/

/-- C6: when the fetched document parses and no entry's `id` equals the
request's `function_id` (the request being otherwise valid), `handleChat`
answers 404 with the not-found message and Gemini is never invoked
(the effect list of sent prompts is empty). -/
theorem handleChat_unknown_function_404 (b : ChatReqBody) (env : ChatEnv)
    (st : StoreWorld) (gw : GeminiWorld) (doc : List PromptDef)
    (hm : strFalsy b.message = false) (hf : strFalsy b.functionId = false)
    (hk : strFalsy env.geminiApiKey = false)
    (h1 : st.metadataResp.ok = true) (h2 : st.contentResp.ok = true)
    (hdoc : st.parsedDoc = some doc)
    (hnone : ∀ p ∈ doc, p.id ≠ b.functionId.getD ("")) :
    handleChat (some b) env st gw =
      (⟨404, ChatBodyOut.errBody (("Function ID \x27") ++ b.functionId.getD ("") ++
        ("\x27 not found."))⟩, ⟨1, []⟩) := by
  have hfind : doc.find? (fun p => p.id == b.functionId.getD ("")) = none := by
    rw [List.find?_eq_none]
    intro p hp
    simpa using hnone p hp
  simp [handleChat, hm, hf, hk, fetchPromptsFromGitHub, h1, h2, hdoc, hfind]

/-- C6 witness: the specification's example — a document with
identifiers `a` and `b`, a request for an unknown identifier. -/
theorem handleChat_unknown_function_404_witness :
    handleChat (some ⟨some ("hi"), some ("zzz")⟩) ⟨some ("key")⟩
      ⟨sampleOkResp, ("sha0"), ⟨true, 200, ("OK"), ("doc")⟩,
        some [⟨("a"), ("A"), (""), ("pa")⟩, ⟨("b"), ("B"), (""), ("pb")⟩]⟩ sampleGemini =
      (⟨404, ChatBodyOut.errBody (("Function ID \x27") ++ ("zzz") ++
        ("\x27 not found."))⟩, ⟨1, []⟩) :=
  handleChat_unknown_function_404 _ _ _ _ _ (by decide) (by decide) (by decide)
    rfl rfl rfl (by decide)

/-! ## Claim C8: missing remote key vs other transport failures -/

def store404 : StoreWorld :=
  ⟨⟨false, 404, ("Not Found"), ("")⟩, (""), sampleOkResp, none⟩

/-- C8 counterexample: when the remote prompts file does not exist
(the metadata request answers 404), the chat path reports the failure
with HTTP status **500**, not 404, and the error body carries only the
upstream `statusText`, not the status code — `fetchPromptsFromGitHub`
throws the same generic error for every non-ok response. -/
theorem c8_counterexample :
    handleChat (some ⟨some ("hi"), some ("a")⟩) ⟨some ("key")⟩ store404 sampleGemini =
      (⟨500, ChatBodyOut.errBody
        ("Internal Server Error during chat processing: Failed to fetch prompts metadata from GitHub: Not Found")⟩,
       ⟨1, []⟩) := by
  decide

/-- C8 (amended): the store client does not distinguish a missing key
from any other transport failure: every non-ok metadata response makes
`fetchPromptsFromGitHub` throw a generic error carrying the upstream
`statusText` (never the numeric status), and on a valid chat request
`handleChat` reports every such failure with status 500. -/
theorem handleChat_store_failure_always_500 (b : ChatReqBody) (env : ChatEnv)
    (st : StoreWorld) (gw : GeminiWorld)
    (hm : strFalsy b.message = false) (hf : strFalsy b.functionId = false)
    (hk : strFalsy env.geminiApiKey = false)
    (hmeta : st.metadataResp.ok = false) :
    handleChat (some b) env st gw =
      (⟨500, ChatBodyOut.errBody (("Internal Server Error during chat processing: ") ++
        (("Failed to fetch prompts metadata from GitHub: ") ++ st.metadataResp.statusText))⟩,
       ⟨1, []⟩) := by
  simp [handleChat, hm, hf, hk, fetchPromptsFromGitHub, hmeta, JsErr.message]

/-- C8 witness: a store whose metadata request fails with 503 is
reported exactly like the missing-key 404 above. -/
theorem handleChat_store_failure_always_500_witness :
    handleChat (some ⟨some ("hi"), some ("a")⟩) ⟨some ("key")⟩
      ⟨⟨false, 503, ("Service Unavailable"), ("")⟩, (""), sampleOkResp, none⟩ sampleGemini =
      (⟨500, ChatBodyOut.errBody (("Internal Server Error during chat processing: ") ++
        (("Failed to fetch prompts metadata from GitHub: ") ++ ("Service Unavailable")))⟩,
       ⟨1, []⟩) :=
  handleChat_store_failure_always_500 _ _ _ _ (by decide) (by decide) (by decide) rfl

/-! ## Claim C5: Gemini responses without a candidate or text -/

def geminiEmptyParts : GeminiWorld :=
  ⟨sampleOkResp, some ⟨some [⟨some ⟨some []⟩⟩]⟩⟩

/-- C5 counterexample: a well-formed, successfully parsed Gemini
response whose first candidate has an **empty** `parts` array does not
yield the fallback message: the empty array is truthy, the guard
passes, and `parts[0].text` throws a `TypeError` — the claim's "never
raises an error" fails. -/
theorem c5_counterexample :
    (callGeminiApi ("t") ("m") geminiEmptyParts).1 = Except.error JsErr.typeError := rfl

/-- C5 (amended): a parsed Gemini response lacking the `candidates`
field, having an empty candidate list, or whose first candidate lacks
`content` or the `parts` field yields the fixed fallback message; but a
first candidate with an empty `parts` array raises a `TypeError`, and a
present first part returns its `text` field rather than the fallback. -/
theorem callGeminiApi_fallback_on_missing_structure (t m : String) (gw : GeminiWorld)
    (j : GeminiJson) (hok : gw.resp.ok = true) (hj : gw.parsedJson = some j)
    (hguard : j.candidates = none ∨ j.candidates = some [] ∨
      (∃ c0 cs, j.candidates = some (c0 :: cs) ∧ (c0.content = none ∨
        (∃ ct, c0.content = some ct ∧ ct.parts = none)))) :
    (callGeminiApi t m gw).1 = Except.ok (some geminiFallback) := by
  rcases hguard with h | h | ⟨c0, cs, hcand, hrest⟩
  · simp [callGeminiApi, hok, hj, extractGeminiText, h]
  · simp [callGeminiApi, hok, hj, extractGeminiText, h]
  · rcases hrest with h | ⟨ct, hct, hparts⟩
    · simp [callGeminiApi, hok, hj, extractGeminiText, hcand, h]
    · simp [callGeminiApi, hok, hj, extractGeminiText, hcand, hct, hparts]

/-- C5 witness: a parsed response with no `candidates` field yields the
fallback. -/
theorem callGeminiApi_fallback_on_missing_structure_witness :
    (callGeminiApi ("t") ("m") ⟨sampleOkResp, some ⟨none⟩⟩).1 =
      Except.ok (some geminiFallback) :=
  callGeminiApi_fallback_on_missing_structure _ _ _ ⟨none⟩ rfl rfl (Or.inl rfl)

/-! ## Claim C3: the save handler's version-token discipline -/

/-- C3: every conditional write issued by `handleSavePrompts` carries as
its `sha` precondition exactly the token returned by the
`fetchPromptsFromGitHub` call performed within the same invocation,
immediately before the write; the handler has no other source of
tokens — neither the request body nor any state from earlier calls
enters the precondition. -/
theorem handleSavePrompts_uses_freshly_fetched_sha (env : SaveEnv)
    (reqBody : Option String) (st : StoreWorld) (cw : CommitWorld) :
    ∀ c ∈ (handleSavePrompts env reqBody st cw).2.commits,
      ∃ content, fetchPromptsFromGitHub st = Except.ok (content, c.sha) := by
  intro c hc
  unfold handleSavePrompts at hc
  by_cases hp : strFalsy env.githubPat
  · simp [hp] at hc
  · simp only [hp, Bool.false_eq_true, if_false] at hc
    cases reqBody with
    | none => simp at hc
    | some body =>
      simp only at hc
      cases hfetch : fetchPromptsFromGitHub st with
      | error e => rw [hfetch] at hc; simp at hc
      | ok pr =>
        obtain ⟨cont, sha⟩ := pr
        rw [hfetch] at hc
        simp only at hc
        by_cases hb : btoaOk body = false
        · simp [hb] at hc
        · by_cases hcom : cw.commitResp.ok
          · simp [hb, hcom] at hc
            subst hc
            exact ⟨cont, rfl⟩
          · simp [hb, hcom] at hc
            subst hc
            exact ⟨cont, rfl⟩

/-- C3 witness: in a world where the store answers with token `sha0`,
the write the handler issues carries `sha0`. -/
theorem handleSavePrompts_uses_freshly_fetched_sha_witness :
    ∃ content, fetchPromptsFromGitHub sampleStore =
      Except.ok (content, (CommitReq.mk ("[]") ("sha0")).sha) :=
  handleSavePrompts_uses_freshly_fetched_sha ⟨some ("pat")⟩ (some ("[]")) sampleStore
    ⟨sampleOkResp⟩ ⟨("[]"), ("sha0")⟩ (by decide)

/-! ## Claim C9: save-handler status discipline -/

/-- C9: `handleSavePrompts` answers 200 with the fixed success message
exactly when a conditional write was issued and the store accepted it;
every other outcome is a 500 with an error body.  When the write
credential is absent the configuration error is produced before any
network call (no fetch, no commit), and when the store rejects the
commit the error body carries the upstream status code and response
body verbatim. -/
theorem handleSavePrompts_status_contract (env : SaveEnv) (reqBody : Option String)
    (st : StoreWorld) (cw : CommitWorld) :
    ((handleSavePrompts env reqBody st cw).1.status = 200 ↔
      ((handleSavePrompts env reqBody st cw).2.commits ≠ [] ∧ cw.commitResp.ok = true)) ∧
    ((handleSavePrompts env reqBody st cw).1.status = 200 →
      (handleSavePrompts env reqBody st cw).1.body =
        SaveBodyOut.successBody ("Prompts successfully saved and committed to GitHub.")) ∧
    ((handleSavePrompts env reqBody st cw).1.status ≠ 200 →
      (handleSavePrompts env reqBody st cw).1.status = 500 ∧
      ∃ msg, (handleSavePrompts env reqBody st cw).1.body = SaveBodyOut.errBody msg) ∧
    (strFalsy env.githubPat = true →
      (handleSavePrompts env reqBody st cw).1.body =
        SaveBodyOut.errBody ("GITHUB_PAT secret is not configured.") ∧
      (handleSavePrompts env reqBody st cw).2 = ⟨0, []⟩) ∧
    ((handleSavePrompts env reqBody st cw).2.commits ≠ [] → cw.commitResp.ok = false →
      (handleSavePrompts env reqBody st cw).1.body =
        SaveBodyOut.errBody (("Internal Server Error during prompt saving: ") ++
          (("Failed to commit to GitHub: ") ++ toString cw.commitResp.status ++
            (" - ") ++ cw.commitResp.body))) := by
  by_cases hp : strFalsy env.githubPat
  · simp [handleSavePrompts, hp]
  · cases reqBody with
    | none => simp [handleSavePrompts, hp]
    | some body =>
      cases hfetch : fetchPromptsFromGitHub st with
      | error e => simp [handleSavePrompts, hp, hfetch]
      | ok pr =>
        by_cases hb : btoaOk body = false
        · simp [handleSavePrompts, hp, hfetch, hb]
        · by_cases hcom : cw.commitResp.ok
          · simp [handleSavePrompts, hp, hfetch, hb, hcom]
          · simp [handleSavePrompts, hp, hfetch, hb, hcom]

/-- C9 witness: in a world where the credential is present, the body
parses, the fetch succeeds and the store accepts the commit, the
handler answers 200. -/
theorem handleSavePrompts_status_contract_witness :
    (handleSavePrompts ⟨some ("pat0")⟩ (some ("[ ]")) sampleStore ⟨sampleOkResp⟩).1.status =
      200 :=
  ((handleSavePrompts_status_contract ⟨some ("pat0")⟩ (some ("[ ]")) sampleStore
    ⟨sampleOkResp⟩).1).mpr ⟨by decide, rfl⟩

/-! ## Claim C4: the webhook handler's failure path -/

/-- The world of C4's failing input: a webhook request whose body is
not valid JSON. -/
def tgWorldBadJson : TgWorld := ⟨none, sampleStore, sampleGemini, false⟩

/-- C4: contrary to the claim, when an internal failure occurs with the
bot token configured, the webhook handler does **not** answer 500
`Error` after notifying the chat: its catch block reads the variable
`update`, which is scoped to the try block, so a `ReferenceError`
escapes the handler unconverted (and no notification is sent).  Here
the failing input is a request body that is not valid JSON. -/
theorem c4_webhook_catch_block_throws :
    handleTelegramWebhook ⟨some ("token"), some ("key")⟩ tgWorldBadJson =
      (Except.error JsErr.referenceError, ⟨⟨0, []⟩, []⟩) := rfl

/-! ## Claim C10: webhook updates without a text message -/

/-- C10: with the bot token configured, an update that parses but has
no `message`, or a message whose `text` is absent or empty, is answered
200 `OK` with no store fetch, no Gemini call and no outbound Telegram
message. -/
theorem webhook_ignores_updates_without_text (env : TgEnv) (w : TgWorld)
    (update : TgUpdate) (htok : strFalsy env.telegramBotToken = false)
    (hup : w.updateParse = some update)
    (hmsg : update.message = none ∨
      ∃ msg, update.message = some msg ∧ strFalsy msg.text = true) :
    handleTelegramWebhook env w = (Except.ok ⟨200, ("OK")⟩, ⟨⟨0, []⟩, []⟩) := by
  rcases hmsg with h | ⟨msg, hm, ht⟩
  · simp [handleTelegramWebhook, htok, hup, h]
  · simp [handleTelegramWebhook, htok, hup, hm, ht]

/-- C10 witness: an update with no `message` field. -/
theorem webhook_ignores_updates_without_text_witness :
    handleTelegramWebhook ⟨some ("token"), some ("key")⟩
      ⟨some ⟨none⟩, sampleStore, sampleGemini, false⟩ =
      (Except.ok ⟨200, ("OK")⟩, ⟨⟨0, []⟩, []⟩) :=
  webhook_ignores_updates_without_text _ _ ⟨none⟩ (by decide) rfl (Or.inl rfl)
